import Mathlib

/-!
Verification of the idempotent operation control plane of the geoapi
repository (`api_requests/base_request.py`).

The development shallowly embeds the Python code:

* `JValue` models the JSON-ish Python values that flow through the
  controller (`dict`/`list`/scalars), with an extra constructor `pyobj`
  for a Python object that has no JSON encoding (its payload is the
  string produced by `str(obj)`).
* `dumps` models `json.dumps(v, sort_keys=True, default=str)` and
  `dumpsStrict` models `json.dumps(v)` without the `default=str` escape
  hatch (raising `TypeError` on non-serializable components).
* `sha256hex` is a full SHA-256 implementation over byte lists (Nat
  arithmetic mod 2^32), used by `generate_request_id` exactly as the
  source uses `hashlib.sha256(...).hexdigest()`.
* The operations table is a `Store` (list of `OperationRecord` rows plus
  a fresh-id counter standing in for `gen_random_uuid()`); each SQL
  statement of the source is translated into a function on `Store`.
* `idempotent_operation` is the controller entry point
  (`BaseRequest.idempotent_operation`).  Transient backend failures are
  modelled by the `StoreHealth` flags: a flag set means the
  corresponding database call raises, and the embedding reproduces what
  the surrounding `try/except` of the source does with that exception.

HTTP body serialization inside `BaseRequest.respond` is out of scope
(spec section 1 treats response formatting as an external collaborator);
responses are modelled structurally by `HttpResp` (status code, message,
JSON payload).  Timestamps are abstract Nat instants measured in hours
(the unit the source's `operation_timeout_hours` uses); SQL's
`CURRENT_TIMESTAMP` becomes an explicit `now` argument.
-/

/-- JSON-like Python value. `pyobj s` is a Python object with no JSON
encoding whose `str()` representation is `s`. -/
inductive JValue where
  | null : JValue
  | bool (b : Bool) : JValue
  | num (n : Int) : JValue
  | str (s : String) : JValue
  | arr (xs : List JValue) : JValue
  | obj (fields : List (String × JValue)) : JValue
  | pyobj (reprStr : String) : JValue
deriving Repr

/-- Python truthiness for the values above (`None`, `{}`, `[]`, `""`, `0`,
`False` are falsy; any other object is truthy). -/
def jtruthy : JValue → Bool
  | .null => false
  | .bool b => b
  | .num n => n != 0
  | .str s => !s.isEmpty
  | .arr xs => !xs.isEmpty
  | .obj fs => !fs.isEmpty
  | .pyobj _ => true

/-- JSON string escaping as `json.dumps` performs it for the characters
appearing in this development (quote and backslash; other characters are
emitted verbatim). -/
def jsonEscapeChar (c : Char) : String :=
  if c = '"' then "\\\""
  else if c = '\\' then "\\\\"
  else String.singleton c

def jsonEscape (s : String) : String :=
  String.join (s.data.map jsonEscapeChar)

/-- A JSON string literal: `json.dumps` of a Python `str`. -/
def jsonStr (s : String) : String := "\"" ++ jsonEscape s ++ "\""

/-- Lexicographic code-point comparison on char lists: Python's `str`
ordering, used by `sorted`/`sort_keys=True`. -/
def charListLe : List Char → List Char → Bool
  | [], _ => true
  | _ :: _, [] => false
  | a :: as, b :: bs =>
      if a.toNat < b.toNat then true
      else if b.toNat < a.toNat then false
      else charListLe as bs

def strLe (a b : String) : Bool := charListLe a.data b.data

/-- Insertion sort of `(key, rendered entry)` pairs by key, modelling
`sort_keys=True`. -/
def insertByKey (p : String × String) : List (String × String) → List (String × String)
  | [] => [p]
  | q :: qs => if strLe p.1 q.1 then p :: q :: qs else q :: insertByKey p qs

def sortByKey : List (String × String) → List (String × String)
  | [] => []
  | p :: ps => insertByKey p (sortByKey ps)

mutual
/-- Model of `json.dumps(v, sort_keys=True, default=str)` with the default
separators `", "` and `": "`.  A `pyobj` is routed through `default=str`:
its `str()` representation is serialized as a JSON string. -/
def dumps : JValue → String
  | .null => "null"
  | .bool true => "true"
  | .bool false => "false"
  | .num n => toString n
  | .str s => jsonStr s
  | .arr xs => "[" ++ String.intercalate ", " (dumpsList xs) ++ "]"
  | .obj fs =>
      "\x7b" ++
        String.intercalate ", "
          ((sortByKey (dumpsFields fs)).map (fun p => jsonStr p.1 ++ ": " ++ p.2)) ++
        "\x7d"
  | .pyobj r => jsonStr r

def dumpsList : List JValue → List String
  | [] => []
  | x :: xs => dumps x :: dumpsList xs

def dumpsFields : List (String × JValue) → List (String × String)
  | [] => []
  | (k, v) :: fs => (k, dumps v) :: dumpsFields fs
end

mutual
/-- Does the value contain a component with no JSON encoding?  Exactly in
that case `json.dumps` without `default=str` raises `TypeError`. -/
def hasPyObj : JValue → Bool
  | .null | .bool _ | .num _ | .str _ => false
  | .arr xs => hasPyObjList xs
  | .obj fs => hasPyObjFields fs
  | .pyobj _ => true

def hasPyObjList : List JValue → Bool
  | [] => false
  | x :: xs => hasPyObj x || hasPyObjList xs

def hasPyObjFields : List (String × JValue) → Bool
  | [] => false
  | (_, v) :: fs => hasPyObj v || hasPyObjFields fs
end

/-- Model of `json.dumps(v)` (no `default`): raises `TypeError` on a value
with a non-serializable component, otherwise produces the same text as
`dumps` (whose `default=str` branch is then never reached). -/
def dumpsStrict (v : JValue) : Except Unit String :=
  if hasPyObj v then .error () else .ok (dumps v)

/-! ## SHA-256 (`hashlib.sha256(x.encode()).hexdigest()`)

Bytes and 32-bit words are Nat, reduced mod 2^32 where the source's
machine arithmetic wraps. -/

def w32 (x : Nat) : Nat := x % 4294967296

def rotr32 (n x : Nat) : Nat := w32 ((x >>> n) ||| (x <<< (32 - n)))

def chooseBits (x y z : Nat) : Nat := (x &&& y) ^^^ ((x ^^^ 4294967295) &&& z)

def majorityBits (x y z : Nat) : Nat := (x &&& y) ^^^ (x &&& z) ^^^ (y &&& z)

def sumA32 (x : Nat) : Nat := rotr32 2 x ^^^ rotr32 13 x ^^^ rotr32 22 x

def sumE32 (x : Nat) : Nat := rotr32 6 x ^^^ rotr32 11 x ^^^ rotr32 25 x

def sigW0 (x : Nat) : Nat := rotr32 7 x ^^^ rotr32 18 x ^^^ (x >>> 3)

def sigW1 (x : Nat) : Nat := rotr32 17 x ^^^ rotr32 19 x ^^^ (x >>> 10)

def sha256K : List Nat :=
  [1116352408, 1899447441, 3049323471, 3921009573, 961987163, 1508970993, 2453635748, 2870763221,
   3624381080, 310598401, 607225278, 1426881987, 1925078388, 2162078206, 2614888103, 3248222580,
   3835390401, 4022224774, 264347078, 604807628, 770255983, 1249150122, 1555081692, 1996064986,
   2554220882, 2821834349, 2952996808, 3210313671, 3336571891, 3584528711, 113926993, 338241895,
   666307205, 773529912, 1294757372, 1396182291, 1695183700, 1986661051, 2177026350, 2456956037,
   2730485921, 2820302411, 3259730800, 3345764771, 3516065817, 3600352804, 4094571909, 275423344,
   430227734, 506948616, 659060556, 883997877, 958139571, 1322822218, 1537002063, 1747873779,
   1955562222, 2024104815, 2227730452, 2361852424, 2428436474, 2756734187, 3204031479, 3329325298]

def sha256H0 : List Nat :=
  [1779033703, 3144134277, 1013904242, 2773480762, 1359893119, 2600822924, 528734635, 1541459225]

/-- Big-endian word from a list of bytes. -/
def be (bs : List Nat) : Nat := bs.foldl (fun a b => a * 256 + b) 0

/-- SHA-256 padding: append `0x80`, zero bytes to 56 mod 64, then the
message bit length as an 8-byte big-endian integer. -/
def shaPad (msg : List Nat) : List Nat :=
  let z := (120 - (msg.length + 1) % 64) % 64
  msg ++ [0x80] ++ List.replicate z 0 ++
    (List.range 8).map (fun i => ((8 * msg.length) >>> (8 * (7 - i))) % 256)

/-- Message schedule W[0..63] for one 64-byte block. -/
def shaSchedule (block : List Nat) : List Nat :=
  let w0 := (List.range 16).map (fun i => be ((block.drop (4 * i)).take 4))
  (List.range 48).foldl
    (fun w t =>
      let i := t + 16
      w ++ [w32 (sigW1 (w.getD (i - 2) 0) + w.getD (i - 7) 0 +
                 sigW0 (w.getD (i - 15) 0) + w.getD (i - 16) 0)])
    w0

/-- One round of the SHA-256 compression function. -/
def shaRound (w : List Nat) (st : List Nat) (t : Nat) : List Nat :=
  match st with
  | [a, b, c, d, e, f, g, h] =>
      let t1 := w32 (h + sumE32 e + chooseBits e f g + sha256K.getD t 0 + w.getD t 0)
      let t2 := w32 (sumA32 a + majorityBits a b c)
      [w32 (t1 + t2), a, b, c, w32 (d + t1), e, f, g]
  | other => other

def shaCompress (H : List Nat) (block : List Nat) : List Nat :=
  let w := shaSchedule block
  let st := (List.range 64).foldl (shaRound w) H
  List.zipWith (fun x y => w32 (x + y)) H st

/-- SHA-256 digest (eight 32-bit words) of a byte list. -/
def sha256Words (msg : List Nat) : List Nat :=
  let padded := shaPad msg
  (List.range (padded.length / 64)).foldl
    (fun H i => shaCompress H ((padded.drop (64 * i)).take 64)) sha256H0

def hexDigit (n : Nat) : Char :=
  if n < 10 then Char.ofNat (48 + n) else Char.ofNat (87 + n)

def hex8 (x : Nat) : String :=
  String.mk ((List.range 8).map (fun i => hexDigit ((x >>> (4 * (7 - i))) % 16)))

def sha256hexBytes (msg : List Nat) : String :=
  String.join ((sha256Words msg).map hex8)

/-- UTF-8 encoding of a character (`str.encode()`). -/
def utf8Bytes (c : Char) : List Nat :=
  let n := c.toNat
  if n < 0x80 then [n]
  else if n < 0x800 then [0xC0 ||| (n >>> 6), 0x80 ||| (n &&& 0x3F)]
  else if n < 0x10000 then
    [0xE0 ||| (n >>> 12), 0x80 ||| ((n >>> 6) &&& 0x3F), 0x80 ||| (n &&& 0x3F)]
  else
    [0xF0 ||| (n >>> 18), 0x80 ||| ((n >>> 12) &&& 0x3F),
     0x80 ||| ((n >>> 6) &&& 0x3F), 0x80 ||| (n &&& 0x3F)]

def strBytes (s : String) : List Nat :=
  s.data.foldr (fun c acc => utf8Bytes c ++ acc) []

/-- `hashlib.sha256(s.encode()).hexdigest()`. -/
def sha256hex (s : String) : String := sha256hexBytes (strBytes s)

/-- `BaseRequest._generate_request_id`: deterministic request id from the
operation type and the canonicalized parameters
(`json.dumps(parameters or \x7b\x7d, sort_keys=True, default=str)`). -/
def generate_request_id (operation_type : String) (parameters : JValue) : String :=
  let param_str := dumps (if jtruthy parameters then parameters else .obj [])
  let hash_input := operation_type ++ ":" ++ param_str
  sha256hex hash_input

/-! ## Operation records and the operations table

One row of the `CREATE TABLE` in `BaseRequest._ensure_operations_table`.
`operation_id` is an abstract unique identifier (the table's
`gen_random_uuid()` becomes a fresh-counter draw).  Timestamps are Nat
instants in hours; a `none` is SQL `NULL`.  JSONB columns keep the
structured value (the source serializes with `json.dumps` and the
database parses back; this round trip is the identity on serializable
values, and every write below first checks serializability exactly where
the source's `json.dumps` would raise). -/

inductive OperationStatus where
  | queued | running | completed | failed | expired
deriving DecidableEq, Repr

def OperationStatus.value : OperationStatus → String
  | .queued => "queued"
  | .running => "running"
  | .completed => "completed"
  | .failed => "failed"
  | .expired => "expired"

structure OperationRecord where
  operation_id : Nat
  operation_type : String
  request_id : String
  parameters : Option String
  operation_status : String
  started_at : Nat
  queued_at : Option Nat
  processing_started_at : Option Nat
  completed_at : Option Nat
  expires_at : Option Nat
  result : Option JValue
  error_details : Option JValue
  retry_count : Nat
  max_retries : Nat
  published_services : List JValue
deriving Repr

/-- The operations table plus the id generator state. -/
structure Store where
  rows : List OperationRecord
  nextId : Nat
deriving Repr

/-- Transient-backend-failure model: a set flag makes the corresponding
database call of one `execute` raise, and the embedding does with the
exception exactly what the surrounding `try/except` of the source does. -/
structure StoreHealth where
  lookupFails : Bool
  insertFails : Bool
  updateFails : Bool
  completeFails : Bool
  incrementFails : Bool
deriving Repr

def healthy : StoreHealth := ⟨false, false, false, false, false⟩

/-! ## HTTP responses

`BaseRequest.return_success` / `return_error` / `respond` build an
`azure.functions.HttpResponse`; body serialization is out of scope (spec
section 1), so a response is modelled by its status code, message and
JSON payload. -/

structure HttpResp where
  code : Nat
  message : String
  json_out : Option JValue
deriving Repr

def return_success (message : String) (code : Nat) (json_out : Option JValue) : HttpResp :=
  ⟨code, message, json_out⟩

def return_error (message : String) (code : Nat) (json_out : Option JValue) : HttpResp :=
  ⟨code, message, json_out⟩

/-- The JSON body `respond` assembles: a dict with the message and, when a
dict `json_out` was given, the payload under `"response"`. -/
def respondBody (r : HttpResp) : JValue :=
  .obj ([("message", .str r.message)] ++
    (match r.json_out with
     | some j => [("response", j)]
     | none => []))

/-- A Python exception raised by the business function: type name and
message (`type(e).__name__` and `str(e)`). -/
structure PyExn where
  ename : String
  emsg : String
deriving DecidableEq, Repr

/-- Exceptions that can escape `idempotent_operation`. -/
inductive PyErr where
  /-- `psycopg2` integrity error from the `unique_request` constraint. -/
  | uniqueViolation
  /-- `TypeError` from `json.dumps` on non-serializable parameters. -/
  | typeError
  /-- transient backend failure surfaced by a database call. -/
  | storeFailure
  /-- the exception raised by `operation_func`, re-raised by the controller. -/
  | opError (e : PyExn)
deriving DecidableEq, Repr

/-- What a call to `idempotent_operation` does for its caller: return an
`HttpResponse`, return Python `None`, or raise. -/
inductive ExecResult where
  | response (r : HttpResp)
  | noneResp
  | raised (e : PyErr)
deriving Repr

/-- Observable outcome of one `execute` call: caller-visible result, the
table afterwards, and whether `operation_func` was invoked. -/
structure ExecOut where
  result : ExecResult
  store : Store
  fnInvoked : Bool
deriving Repr

/-- Python `parameters or self.req_json or \x7b\x7d` (truthiness chain). -/
def pyOrDefault (parameters req_json : Option JValue) : JValue :=
  match parameters with
  | some p =>
      if jtruthy p then p
      else
        match req_json with
        | some r => if jtruthy r then r else .obj []
        | none => .obj []
  | none =>
      match req_json with
      | some r => if jtruthy r then r else .obj []
      | none => .obj []

/-! ## Store queries (`BaseRequest._get_existing_operation` and friends) -/

/-- The `WHERE` clause of the dedup lookup: matching keys and
`(expires_at IS NULL OR expires_at > CURRENT_TIMESTAMP)`. -/
def matchesActive (now : Nat) (request_id operation_type : String) (r : OperationRecord) : Bool :=
  r.request_id == request_id && r.operation_type == operation_type &&
    (match r.expires_at with
     | none => true
     | some e => now < e)

/-- `ORDER BY started_at DESC LIMIT 1`: a row with maximal `started_at`
(first such row on ties, which SQL leaves unspecified). -/
def pickLatest : List OperationRecord → Option OperationRecord
  | [] => none
  | r :: rs =>
      match pickLatest rs with
      | none => some r
      | some b => if r.started_at < b.started_at then some b else some r

/-- `BaseRequest._get_existing_operation`.  The broad `except` of the
source turns any backend failure into "no existing operation". -/
def getExistingOperation (fails : Bool) (now : Nat) (s : Store)
    (request_id operation_type : String) : Option OperationRecord :=
  if fails then none
  else pickLatest (s.rows.filter (matchesActive now request_id operation_type))

/-- `dict.update`: overwrite present keys in place, append new ones. -/
def jObjSet (fs : List (String × JValue)) (k : String) (v : JValue) : List (String × JValue) :=
  if fs.any (fun p => p.1 == k) then fs.map (fun p => if p.1 == k then (k, v) else p)
  else fs ++ [(k, v)]

def jObjUpdate (fs : List (String × JValue)) (kvs : List (String × JValue)) :
    List (String × JValue) :=
  kvs.foldl (fun a p => jObjSet a p.1 p.2) fs

/-- SQL `NULL`-able timestamp as a JSON payload entry. -/
def jTime : Option Nat → JValue
  | some t => .num t
  | none => .null

/-- `BaseRequest._increment_retry_count`: bump `retry_count` and reset the
status to `'queued'`; the row's `error_details` is left untouched.
Failures are swallowed (logged only). -/
def incrementRetryCount (h : StoreHealth) (s : Store) (operation_id : Nat) : Store :=
  if h.incrementFails then s
  else
    { s with
      rows := s.rows.map (fun r =>
        if r.operation_id == operation_id then
          { r with retry_count := r.retry_count + 1, operation_status := "queued" }
        else r) }

/-! ## Handling an existing operation (`BaseRequest._handle_existing_operation`) -/

/-- Cached-result response for a COMPLETED record.  The payload is
`operation.get('result', \x7b\x7d)` — the record's `result` column, which
gets the operation metadata merged in when (and only when) it is a dict.
`started_at` was not part of the dedup `SELECT`, `completed_at` was. -/
def cachedResultResponse (op : OperationRecord) : HttpResp :=
  let result_data : Option JValue :=
    match op.result with
    | some (.obj fs) =>
        some (.obj (jObjUpdate fs
          [("operation_id", .str (toString op.operation_id)),
           ("operation_status", .str "completed"),
           ("completed_at", jTime op.completed_at),
           ("cached_result", .bool true)]))
    | other => other
  return_success "Operation completed (cached result)" 200 result_data

/-- 202 response for a RUNNING record.  The dict built by
`_get_existing_operation` has no `'started_at'` key, so
`operation.get('started_at')` contributes `None`. -/
def inProgressResponse (op : OperationRecord) : HttpResp :=
  return_success "Operation in progress" 202
    (some (.obj
      [("operation_id", .str (toString op.operation_id)),
       ("operation_status", .str "in_progress"),
       ("started_at", .null)]))

/-- 422 response for a FAILED record with retries exhausted
(`max_retries` is the hardcoded local constant 3 of the source). -/
def retriesExhaustedResponse (op : OperationRecord) : HttpResp :=
  return_error "Operation failed after 3 retries" 422
    (some (.obj
      [("operation_id", .str (toString op.operation_id)),
       ("operation_status", .str "failed"),
       ("error_details", match op.error_details with
                         | some j => j
                         | none => .null),
       ("max_retries_exceeded", .bool true)]))

/-- `BaseRequest._handle_existing_operation`.  Returns the response to
hand back, or `none` — the source's `return None` meant as a "signal to
execute new operation" — together with the table (the FAILED-with-retries
branch increments the retry counter). -/
def handleExistingOperation (h : StoreHealth) (s : Store) (op : OperationRecord) :
    Option HttpResp × Store :=
  if op.operation_status == OperationStatus.completed.value then
    (some (cachedResultResponse op), s)
  else if op.operation_status == OperationStatus.running.value then
    (some (inProgressResponse op), s)
  else if op.operation_status == OperationStatus.failed.value then
    if op.retry_count < 3 then
      (none, incrementRetryCount h s op.operation_id)
    else
      (some (retriesExhaustedResponse op), s)
  else
    (none, s)

/-! ## Starting, updating and completing operations -/

/-- The row the `INSERT` of `_start_operation` creates: the stated
columns get their values, the rest their SQL defaults (`started_at`
defaults to `CURRENT_TIMESTAMP`). -/
def newOperationRow (now timeout_hours oid : Nat)
    (request_id operation_type pdump : String) : OperationRecord :=
  { operation_id := oid
    operation_type := operation_type
    request_id := request_id
    parameters := some pdump
    operation_status := OperationStatus.queued.value
    started_at := now
    queued_at := some now
    processing_started_at := none
    completed_at := none
    expires_at := some (now + timeout_hours)
    result := none
    error_details := none
    retry_count := 0
    max_retries := 3
    published_services := [] }

/-- `BaseRequest._start_operation`: `INSERT ... RETURNING operation_id`.
Failure order follows the source: the connection is opened first (a
backend failure raises), `json.dumps(parameters or \x7b\x7d)` is evaluated
while building the statement arguments (`TypeError` on non-serializable
parameters), and the insert itself raises on a `unique_request`
constraint conflict.  Every raise propagates (`except ...: raise`). -/
def startOperation (h : StoreHealth) (now timeout_hours : Nat) (s : Store)
    (request_id operation_type : String) (parameters : JValue) :
    Except PyErr (Store × Nat) :=
  if h.insertFails then .error .storeFailure
  else
    match dumpsStrict (if jtruthy parameters then parameters else .obj []) with
    | .error _ => .error .typeError
    | .ok pdump =>
        if s.rows.any (fun r => r.request_id == request_id &&
                                r.operation_type == operation_type) then
          .error .uniqueViolation
        else
          .ok ({ rows := s.rows ++ [newOperationRow now timeout_hours s.nextId
                                      request_id operation_type pdump],
                 nextId := s.nextId + 1 }, s.nextId)

/-- `BaseRequest._update_operation_status`: plain `UPDATE` by id; RUNNING
also stamps `processing_started_at`.  Returns whether the call succeeded
(failures are logged and reported as `False`). -/
def updateOperationStatus (h : StoreHealth) (now : Nat) (s : Store)
    (operation_id : Nat) (status : OperationStatus) : Store × Bool :=
  if h.updateFails then (s, false)
  else
    ({ s with
       rows := s.rows.map (fun r =>
         if r.operation_id == operation_id then
           if status = .running then
             { r with operation_status := status.value,
                      processing_started_at := some now }
           else
             { r with operation_status := status.value }
         else r) }, true)

/-- `BaseRequest._extract_result_data`: parse the JSON body of the
response the business function returned.  `respond` always emits the
JSON serialization of `respondBody`, so the parse is its round trip; the
non-JSON fallback branch of the source is unreachable here. -/
def extract_result_data : Option HttpResp → JValue
  | none => .obj []
  | some r => respondBody r

/-- `BaseRequest._complete_operation`: terminal `UPDATE` by id.  FAILED
stores the payload in `error_details`, any other status in `result`;
both stamp `completed_at`.  A serialization `TypeError/ValueError` or a
backend failure is caught and reported as `False`. -/
def completeOperation (h : StoreHealth) (now : Nat) (s : Store)
    (operation_id : Nat) (status : OperationStatus) (result_data : JValue) :
    Store × Bool :=
  if h.completeFails then (s, false)
  else
    match dumpsStrict result_data with
    | .error _ => (s, false)
    | .ok _ =>
        if status = .failed then
          ({ s with
             rows := s.rows.map (fun r =>
               if r.operation_id == operation_id then
                 { r with operation_status := status.value,
                          completed_at := some now,
                          error_details := some result_data }
               else r) }, true)
        else
          ({ s with
             rows := s.rows.map (fun r =>
               if r.operation_id == operation_id then
                 { r with operation_status := status.value,
                          completed_at := some now,
                          result := some result_data }
               else r) }, true)

/-- The deletion condition of `BaseRequest.cleanup_expired_operations`:
`expires_at < CURRENT_TIMESTAMP - INTERVAL '<days_old> days'` (written
additively; a `NULL` `expires_at` never satisfies it).  The status of
the row plays no part. -/
def cleanupDeletes (now days_old : Nat) (r : OperationRecord) : Bool :=
  match r.expires_at with
  | some e => e + 24 * days_old < now
  | none => false

/-- `BaseRequest.cleanup_expired_operations`: bulk `DELETE` of every row
satisfying `cleanupDeletes`. -/
def cleanup_expired_operations (now days_old : Nat) (s : Store) : Store :=
  { s with rows := s.rows.filter (fun r => !cleanupDeletes now days_old r) }

/-! ## The controller entry point (`BaseRequest.idempotent_operation`) -/

def idempotent_operation (h : StoreHealth) (now : Nat)
    (enable_idempotency : Bool) (operation_timeout_hours : Nat)
    (req_json : Option JValue) (s : Store)
    (operation_type : String) (operation_func : Except PyExn HttpResp)
    (parameters : Option JValue) (force_new : Bool) : ExecOut :=
  if !enable_idempotency then
    match operation_func with
    | .ok r => ⟨.response r, s, true⟩
    | .error e => ⟨.raised (.opError e), s, true⟩
  else
    let params := pyOrDefault parameters req_json
    let request_id := generate_request_id operation_type params
    let existing : Option OperationRecord :=
      if force_new then none
      else getExistingOperation h.lookupFails now s request_id operation_type
    match existing with
    | some op =>
        -- the source returns `_handle_existing_operation(...)` directly,
        -- including the `None` meant as a re-execution signal
        match handleExistingOperation h s op with
        | (some r, s1) => ⟨.response r, s1, false⟩
        | (none, s1) => ⟨.noneResp, s1, false⟩
    | none =>
        match startOperation h now operation_timeout_hours s request_id
                operation_type params with
        | .error e => ⟨.raised e, s, false⟩
        | .ok (s1, operation_id) =>
            let (s2, _status_updated) :=
              updateOperationStatus h now s1 operation_id .running
            match operation_func with
            | .ok result =>
                let result_data := extract_result_data (some result)
                let (s3, _completed) :=
                  completeOperation h now s2 operation_id .completed result_data
                ⟨.response result, s3, true⟩
            | .error e =>
                let error_details : JValue :=
                  .obj [("error", .str e.emsg),
                        ("error_type", .str e.ename),
                        ("timestamp", .num now)]
                let (s3, _completed) :=
                  completeOperation h now s2 operation_id .failed error_details
                ⟨.raised (.opError e), s3, true⟩

/-- An `execute` call that loses the create race: identical to
`idempotent_operation` with `force_new = False`, except that the
concurrent winner's row commits between the dedup lookup and this
caller's `INSERT` (the lookup reads the table without it, the insert
runs against the table with it). -/
def idempotentOperationRaced (h : StoreHealth) (now : Nat)
    (operation_timeout_hours : Nat) (req_json : Option JValue) (s : Store)
    (winner : OperationRecord)
    (operation_type : String) (operation_func : Except PyExn HttpResp)
    (parameters : Option JValue) : ExecOut :=
  let params := pyOrDefault parameters req_json
  let request_id := generate_request_id operation_type params
  match getExistingOperation h.lookupFails now s request_id operation_type with
  | some op =>
      match handleExistingOperation h s op with
      | (some r, s1) => ⟨.response r, s1, false⟩
      | (none, s1) => ⟨.noneResp, s1, false⟩
  | none =>
      let sWin : Store := { rows := s.rows ++ [winner], nextId := s.nextId + 1 }
      match startOperation h now operation_timeout_hours sWin request_id
              operation_type params with
      | .error e => ⟨.raised e, sWin, false⟩
      | .ok (s1, operation_id) =>
          let (s2, _status_updated) :=
            updateOperationStatus h now s1 operation_id .running
          match operation_func with
          | .ok result =>
              let result_data := extract_result_data (some result)
              let (s3, _completed) :=
                completeOperation h now s2 operation_id .completed result_data
              ⟨.response result, s3, true⟩
          | .error e =>
              let error_details : JValue :=
                .obj [("error", .str e.emsg),
                      ("error_type", .str e.ename),
                      ("timestamp", .num now)]
              let (s3, _completed) :=
                completeOperation h now s2 operation_id .failed error_details
              ⟨.raised (.opError e), s3, true⟩

/-- Sequential repetition of the same `execute` call at the given
instants, counting how often `operation_func` is invoked. -/
def repeatCalls (h : StoreHealth) (operation_timeout_hours : Nat)
    (req_json : Option JValue) (operation_type : String)
    (operation_func : Except PyExn HttpResp) (parameters : Option JValue) :
    List Nat → Store → Store × Nat
  | [], s => (s, 0)
  | t :: ts, s =>
      let e := idempotent_operation h t true operation_timeout_hours req_json s
                 operation_type operation_func parameters false
      let (s', n) := repeatCalls h operation_timeout_hours req_json
                       operation_type operation_func parameters ts e.store
      (s', (if e.fnInvoked then 1 else 0) + n)

/-- The fresh row after `_update_operation_status(id, RUNNING)`. -/
def rowAfterRunning (now timeout_hours oid : Nat)
    (request_id operation_type pdump : String) : OperationRecord :=
  { newOperationRow now timeout_hours oid request_id operation_type pdump with
    operation_status := OperationStatus.running.value
    processing_started_at := some now }

/-- The fresh row after a successful run and `_complete_operation`. -/
def rowAfterSuccess (now timeout_hours oid : Nat)
    (request_id operation_type pdump : String) (result_data : JValue) : OperationRecord :=
  { rowAfterRunning now timeout_hours oid request_id operation_type pdump with
    operation_status := OperationStatus.completed.value
    completed_at := some now
    result := some result_data }

/-- The fresh row after a failed run and `_complete_operation`. -/
def rowAfterFailure (now timeout_hours oid : Nat)
    (request_id operation_type pdump : String) (error_details : JValue) : OperationRecord :=
  { rowAfterRunning now timeout_hours oid request_id operation_type pdump with
    operation_status := OperationStatus.failed.value
    completed_at := some now
    error_details := some error_details }

/-- The structured error payload `idempotent_operation` builds when
`operation_func` raises. -/
def errorDetailsOf (e : PyExn) (now : Nat) : JValue :=
  .obj [("error", .str e.emsg), ("error_type", .str e.ename), ("timestamp", .num now)]

/-! ## Record / store invariants (data-model claims) -/

/-- Per-record payload invariant claimed by the spec's data model:
`result` non-null iff COMPLETED, and `error` non-null for FAILED (the
spec claims the converse of the second part too; see the counterexample
for C8). -/
def RecInv (r : OperationRecord) : Prop :=
  (r.result.isSome = true ↔ r.operation_status = OperationStatus.completed.value) ∧
  (r.operation_status = OperationStatus.failed.value → r.error_details.isSome = true)

/-- Well-formed table: every row satisfies `RecInv`, row ids are distinct
and below the id-generator state. -/
def StoreWF (s : Store) : Prop :=
  (∀ r ∈ s.rows, RecInv r) ∧
  (s.rows.map (fun r => r.operation_id)).Nodup ∧
  (∀ r ∈ s.rows, r.operation_id < s.nextId)

/-! ## Concrete fixtures -/

def exOT : String := "stage_raster"

def exParams : Option JValue := some (.obj [("name", .str "a.tif"), ("epsg", .num 4326)])

def okResp : HttpResp := ⟨200, "Success", some (.obj [("ok", .bool true)])⟩

def okFn : Except PyExn HttpResp := .ok okResp

def failFn : Except PyExn HttpResp := .error ⟨"RuntimeError", "boom"⟩

def emptyStore : Store := ⟨[], 0⟩

/-- An always-failing business function called three times with identical
parameters (the retry scenario of the spec's testable properties). -/
def failCall1 : ExecOut :=
  idempotent_operation healthy 0 true 24 none emptyStore exOT failFn exParams false

def failCall2 : ExecOut :=
  idempotent_operation healthy 1 true 24 none failCall1.store exOT failFn exParams false

def failCall3 : ExecOut :=
  idempotent_operation healthy 2 true 24 none failCall2.store exOT failFn exParams false

/-- A non-expired COMPLETED record for `(exOT, exParams)`, as the first
successful call leaves it. -/
def exCompletedRecord : OperationRecord :=
  rowAfterSuccess 0 24 0 (generate_request_id exOT (pyOrDefault exParams none)) exOT
    (dumps (pyOrDefault exParams none)) (respondBody okResp)

def exCompletedStore : Store := ⟨[exCompletedRecord], 1⟩

/-- The same record already expired (`expires_at = 5`, observed later). -/
def exExpiredRecord : OperationRecord := { exCompletedRecord with expires_at := some 5 }

def exExpiredStore : Store := ⟨[exExpiredRecord], 1⟩

/-- A RUNNING record for `(exOT, exParams)` owned by a concurrent caller. -/
def exRunningRecord : OperationRecord :=
  rowAfterRunning 0 24 0 (generate_request_id exOT (pyOrDefault exParams none)) exOT
    (dumps (pyOrDefault exParams none))

def exRunningStore : Store := ⟨[exRunningRecord], 1⟩

/-- A long-stuck RUNNING row whose `expires_at` lies far in the past. -/
def exStuckRunningRecord : OperationRecord := { exRunningRecord with expires_at := some 0 }

def exStuckRunningStore : Store := ⟨[exStuckRunningRecord], 1⟩

/-- Parameter dicts that are logically the same payload but carry a
non-serializable object whose `str()` differs between the two calls
(e.g. two memory addresses of the same file handle). -/
def pyobjParams1 : JValue := .obj [("file", .pyobj "<ras 0x7f01>")]

def pyobjParams2 : JValue := .obj [("file", .pyobj "<ras 0x7f02>")]


/-- Effect of `_update_operation_status(id, RUNNING)` on the targeted row. -/
def setRunningRow (now : Nat) (r : OperationRecord) : OperationRecord :=
  { r with operation_status := OperationStatus.running.value
           processing_started_at := some now }

/-- Effect of the success branch of `_complete_operation` on the targeted row. -/
def setCompletedRow (now : Nat) (rdata : JValue) (r : OperationRecord) : OperationRecord :=
  { r with operation_status := OperationStatus.completed.value
           completed_at := some now
           result := some rdata }

/-- Effect of the FAILED branch of `_complete_operation` on the targeted row. -/
def setFailedRow (now : Nat) (edata : JValue) (r : OperationRecord) : OperationRecord :=
  { r with operation_status := OperationStatus.failed.value
           completed_at := some now
           error_details := some edata }

/-! ## Helper lemmas -/

theorem map_untouched {α : Type} (l : List α) (f : α → α) (h : ∀ x ∈ l, f x = x) :
    l.map f = l := by
  induction l with
  | nil => rfl
  | cons a t ih =>
      simp only [List.map_cons]
      rw [h a (by simp), ih (fun x hx => h x (by simp [hx]))]

theorem matchesActive_false_of_keys (now : Nat) (rid ot : String) (r : OperationRecord)
    (h : ¬(r.request_id = rid ∧ r.operation_type = ot)) :
    matchesActive now rid ot r = false := by
  unfold matchesActive
  rcases not_and_or.mp h with hk | hk <;>
    simp [beq_eq_false_iff_ne.mpr hk]

theorem getExisting_none_of_keys (now : Nat) (s : Store) (rid ot : String)
    (h : ∀ r ∈ s.rows, ¬(r.request_id = rid ∧ r.operation_type = ot)) :
    getExistingOperation false now s rid ot = none := by
  unfold getExistingOperation
  rw [if_neg (by simp)]
  rw [List.filter_eq_nil_iff.mpr (fun r hr => by
    simp [matchesActive_false_of_keys now rid ot r (h r hr)])]
  rfl

theorem getExisting_none_of_expired (now : Nat) (s : Store) (rid ot : String)
    (h : ∀ r ∈ s.rows, r.request_id = rid → r.operation_type = ot →
           ∃ e, r.expires_at = some e ∧ e ≤ now) :
    getExistingOperation false now s rid ot = none := by
  unfold getExistingOperation
  rw [if_neg (by simp)]
  rw [List.filter_eq_nil_iff.mpr ?_]
  · rfl
  intro r hr hc
  unfold matchesActive at hc
  simp only [Bool.and_eq_true, beq_iff_eq] at hc
  obtain ⟨⟨h1, h2⟩, h3⟩ := hc
  obtain ⟨e, he, hle⟩ := h r hr h1 h2
  rw [he] at h3
  exact absurd (by omega : ¬ now < e) (by simpa using h3)

theorem getExisting_single (now : Nat) (rows0 : List OperationRecord)
    (row : OperationRecord) (nid : Nat) (rid ot : String)
    (hnm0 : ∀ r ∈ rows0, ¬(r.request_id = rid ∧ r.operation_type = ot))
    (hkey1 : row.request_id = rid) (hkey2 : row.operation_type = ot)
    (E : Nat) (hexp : row.expires_at = some E) (hlt : now < E) :
    getExistingOperation false now ⟨rows0 ++ [row], nid⟩ rid ot = some row := by
  unfold getExistingOperation
  rw [if_neg (by simp)]
  show pickLatest (List.filter _ (rows0 ++ [row])) = some row
  rw [List.filter_append]
  rw [List.filter_eq_nil_iff.mpr (fun r hr => by
    simp [matchesActive_false_of_keys now rid ot r (hnm0 r hr)])]
  have : matchesActive now rid ot row = true := by
    unfold matchesActive
    simp [hkey1, hkey2, hexp, hlt]
  simp [List.filter, this, pickLatest]

theorem startOperation_fresh (now toH : Nat) (s : Store) (rid ot : String) (params : JValue)
    (hser : hasPyObj (if jtruthy params then params else .obj []) = false)
    (hnm : ∀ r ∈ s.rows, ¬(r.request_id = rid ∧ r.operation_type = ot)) :
    startOperation healthy now toH s rid ot params =
      .ok (⟨s.rows ++ [newOperationRow now toH s.nextId rid ot
              (dumps (if jtruthy params then params else .obj []))],
            s.nextId + 1⟩, s.nextId) := by
  have hany : (s.rows.any fun r => r.request_id == rid && r.operation_type == ot) = false := by
    rw [List.any_eq_false]
    intro r hr
    simp only [Bool.and_eq_true, beq_iff_eq]
    exact hnm r hr
  unfold startOperation dumpsStrict
  simp [healthy, hser, hany]

theorem startOperation_conflict (now toH : Nat) (s : Store) (rid ot : String) (params : JValue)
    (hser : hasPyObj (if jtruthy params then params else .obj []) = false)
    (hex : ∃ r ∈ s.rows, r.request_id = rid ∧ r.operation_type = ot) :
    startOperation healthy now toH s rid ot params = .error .uniqueViolation := by
  have hany : (s.rows.any fun r => r.request_id == rid && r.operation_type == ot) = true := by
    rw [List.any_eq_true]
    obtain ⟨r, hr, h1, h2⟩ := hex
    exact ⟨r, hr, by simp [h1, h2]⟩
  unfold startOperation dumpsStrict
  simp [healthy, hser, hany]


theorem update_running_fresh (now nid oid : Nat) (rows : List OperationRecord)
    (row : OperationRecord) (hrowid : row.operation_id = oid)
    (hfresh : ∀ r ∈ rows, r.operation_id ≠ oid) :
    updateOperationStatus healthy now ⟨rows ++ [row], nid⟩ oid .running =
      (⟨rows ++ [setRunningRow now row], nid⟩, true) := by
  unfold updateOperationStatus
  rw [if_neg (by simp [healthy])]
  simp only [List.map_append]
  rw [map_untouched rows _ (fun r hr => by
    simp [beq_eq_false_iff_ne.mpr (hfresh r hr)])]
  simp [hrowid, setRunningRow]

theorem complete_success_fresh (now nid oid : Nat) (rows : List OperationRecord)
    (row : OperationRecord) (rdata : JValue)
    (hser : hasPyObj rdata = false) (hrowid : row.operation_id = oid)
    (hfresh : ∀ r ∈ rows, r.operation_id ≠ oid) :
    completeOperation healthy now ⟨rows ++ [row], nid⟩ oid .completed rdata =
      (⟨rows ++ [setCompletedRow now rdata row], nid⟩, true) := by
  unfold completeOperation dumpsStrict
  rw [if_neg (by simp [healthy]), hser]
  rw [if_neg (by simp)]
  rw [if_neg (by simp : ¬(OperationStatus.completed = OperationStatus.failed))]
  simp only [List.map_append]
  rw [map_untouched rows _ (fun r hr => by
    simp [beq_eq_false_iff_ne.mpr (hfresh r hr)])]
  simp [hrowid, setCompletedRow]

theorem complete_failed_fresh (now nid oid : Nat) (rows : List OperationRecord)
    (row : OperationRecord) (edata : JValue)
    (hser : hasPyObj edata = false) (hrowid : row.operation_id = oid)
    (hfresh : ∀ r ∈ rows, r.operation_id ≠ oid) :
    completeOperation healthy now ⟨rows ++ [row], nid⟩ oid .failed edata =
      (⟨rows ++ [setFailedRow now edata row], nid⟩, true) := by
  unfold completeOperation dumpsStrict
  rw [if_neg (by simp [healthy]), hser]
  rw [if_neg (by simp)]
  rw [if_pos rfl]
  simp only [List.map_append]
  rw [map_untouched rows _ (fun r hr => by
    simp [beq_eq_false_iff_ne.mpr (hfresh r hr)])]
  simp [hrowid, setFailedRow]

/-- A fresh `execute` call (no matching record, working store) with a
successful business function: the caller gets the function's own
response, the function ran, and the table gains exactly one COMPLETED
row holding the parsed response as `result`. -/
theorem run_fresh_ok (now toH : Nat) (rj ps : Option JValue) (s : Store) (ot : String)
    (resp : HttpResp)
    (hnm : ∀ r ∈ s.rows,
      ¬(r.request_id = generate_request_id ot (pyOrDefault ps rj) ∧ r.operation_type = ot))
    (hfresh : ∀ r ∈ s.rows, r.operation_id ≠ s.nextId)
    (hser : hasPyObj (pyOrDefault ps rj) = false)
    (hrser : hasPyObj (respondBody resp) = false) :
    idempotent_operation healthy now true toH rj s ot (.ok resp) ps false =
      ⟨.response resp,
       ⟨s.rows ++ [rowAfterSuccess now toH s.nextId
           (generate_request_id ot (pyOrDefault ps rj)) ot
           (dumps (if jtruthy (pyOrDefault ps rj) then pyOrDefault ps rj else .obj []))
           (respondBody resp)],
        s.nextId + 1⟩,
       true⟩ := by
  have hser' : hasPyObj (if jtruthy (pyOrDefault ps rj) then pyOrDefault ps rj else .obj [])
      = false := by
    split
    · exact hser
    · rfl
  unfold idempotent_operation
  rw [if_neg (by simp)]
  simp only [show healthy.lookupFails = false from rfl, Bool.false_eq_true, reduceIte,
    getExisting_none_of_keys now s (generate_request_id ot (pyOrDefault ps rj)) ot hnm,
    startOperation_fresh now toH s (generate_request_id ot (pyOrDefault ps rj)) ot
      (pyOrDefault ps rj) hser' hnm,
    update_running_fresh now (s.nextId + 1) s.nextId s.rows
      (newOperationRow now toH s.nextId (generate_request_id ot (pyOrDefault ps rj)) ot
        (dumps (if jtruthy (pyOrDefault ps rj) then pyOrDefault ps rj else .obj []))) rfl hfresh,
    extract_result_data,
    complete_success_fresh now (s.nextId + 1) s.nextId s.rows
      (setRunningRow now (newOperationRow now toH s.nextId
        (generate_request_id ot (pyOrDefault ps rj)) ot
        (dumps (if jtruthy (pyOrDefault ps rj) then pyOrDefault ps rj else .obj []))))
      (respondBody resp) hrser rfl hfresh]
  simp [rowAfterSuccess, rowAfterRunning, newOperationRow, setRunningRow, setCompletedRow]

/-- A fresh `execute` call (no matching record, working store) whose
business function raises: the structured error is persisted into a
FAILED row with `completed_at` set, and the exception is re-raised. -/
theorem run_fresh_err (now toH : Nat) (rj ps : Option JValue) (s : Store) (ot : String)
    (exn : PyExn)
    (hnm : ∀ r ∈ s.rows,
      ¬(r.request_id = generate_request_id ot (pyOrDefault ps rj) ∧ r.operation_type = ot))
    (hfresh : ∀ r ∈ s.rows, r.operation_id ≠ s.nextId)
    (hser : hasPyObj (pyOrDefault ps rj) = false) :
    idempotent_operation healthy now true toH rj s ot (.error exn) ps false =
      ⟨.raised (.opError exn),
       ⟨s.rows ++ [rowAfterFailure now toH s.nextId
           (generate_request_id ot (pyOrDefault ps rj)) ot
           (dumps (if jtruthy (pyOrDefault ps rj) then pyOrDefault ps rj else .obj []))
           (errorDetailsOf exn now)],
        s.nextId + 1⟩,
       true⟩ := by
  have hser' : hasPyObj (if jtruthy (pyOrDefault ps rj) then pyOrDefault ps rj else .obj [])
      = false := by
    split
    · exact hser
    · rfl
  unfold idempotent_operation
  rw [if_neg (by simp)]
  simp only [show healthy.lookupFails = false from rfl, Bool.false_eq_true, reduceIte,
    getExisting_none_of_keys now s (generate_request_id ot (pyOrDefault ps rj)) ot hnm,
    startOperation_fresh now toH s (generate_request_id ot (pyOrDefault ps rj)) ot
      (pyOrDefault ps rj) hser' hnm,
    update_running_fresh now (s.nextId + 1) s.nextId s.rows
      (newOperationRow now toH s.nextId (generate_request_id ot (pyOrDefault ps rj)) ot
        (dumps (if jtruthy (pyOrDefault ps rj) then pyOrDefault ps rj else .obj []))) rfl hfresh,
    complete_failed_fresh now (s.nextId + 1) s.nextId s.rows
      (setRunningRow now (newOperationRow now toH s.nextId
        (generate_request_id ot (pyOrDefault ps rj)) ot
        (dumps (if jtruthy (pyOrDefault ps rj) then pyOrDefault ps rj else .obj []))))
      (.obj [("error", .str exn.emsg), ("error_type", .str exn.ename), ("timestamp", .num now)])
      (by rfl) rfl hfresh]
  simp [rowAfterFailure, rowAfterRunning, newOperationRow, setRunningRow, setFailedRow,
    errorDetailsOf]

theorem run_existing (now toH : Nat) (rj ps : Option JValue) (s : Store) (ot : String)
    (fn : Except PyExn HttpResp) (op : OperationRecord)
    (hfind : getExistingOperation false now s
      (generate_request_id ot (pyOrDefault ps rj)) ot = some op) :
    idempotent_operation healthy now true toH rj s ot fn ps false =
      (match handleExistingOperation healthy s op with
       | (some r, s1) => ⟨.response r, s1, false⟩
       | (none, s1) => ⟨.noneResp, s1, false⟩) := by
  unfold idempotent_operation
  rw [if_neg (by simp)]
  simp only [show healthy.lookupFails = false from rfl, Bool.false_eq_true, reduceIte, hfind]

theorem handleExisting_completed (h : StoreHealth) (s : Store) (op : OperationRecord)
    (hstat : op.operation_status = OperationStatus.completed.value) :
    handleExistingOperation h s op = (some (cachedResultResponse op), s) := by
  unfold handleExistingOperation
  simp [hstat]

theorem handleExisting_running (h : StoreHealth) (s : Store) (op : OperationRecord)
    (hstat : op.operation_status = OperationStatus.running.value) :
    handleExistingOperation h s op = (some (inProgressResponse op), s) := by
  unfold handleExistingOperation
  simp [hstat, OperationStatus.value]

theorem handleExisting_failed_retry (h : StoreHealth) (s : Store) (op : OperationRecord)
    (hstat : op.operation_status = OperationStatus.failed.value)
    (hretry : op.retry_count < 3) :
    handleExistingOperation h s op = (none, incrementRetryCount h s op.operation_id) := by
  unfold handleExistingOperation
  simp [hstat, OperationStatus.value, hretry]

theorem handleExisting_failed_exhausted (h : StoreHealth) (s : Store) (op : OperationRecord)
    (hstat : op.operation_status = OperationStatus.failed.value)
    (hretry : ¬ op.retry_count < 3) :
    handleExistingOperation h s op = (some (retriesExhaustedResponse op), s) := by
  unfold handleExistingOperation
  simp [hstat, OperationStatus.value, hretry]

/-- Replaying identical calls against a table whose only matching row is
a non-expired COMPLETED record changes nothing and never invokes the
business function. -/
theorem repeat_cached_zero (toH : Nat) (rj ps : Option JValue) (ot : String)
    (fn : Except PyExn HttpResp) (rows0 : List OperationRecord)
    (row : OperationRecord) (nid E : Nat)
    (hnm0 : ∀ r ∈ rows0,
      ¬(r.request_id = generate_request_id ot (pyOrDefault ps rj) ∧ r.operation_type = ot))
    (hkey1 : row.request_id = generate_request_id ot (pyOrDefault ps rj))
    (hkey2 : row.operation_type = ot)
    (hstat : row.operation_status = OperationStatus.completed.value)
    (hexp : row.expires_at = some E) :
    ∀ ts : List Nat, (∀ t ∈ ts, t < E) →
      repeatCalls healthy toH rj ot fn ps ts ⟨rows0 ++ [row], nid⟩ =
        (⟨rows0 ++ [row], nid⟩, 0) := by
  intro ts
  induction ts with
  | nil => intro _; rfl
  | cons t ts ih =>
      intro hts
      have hcall := run_existing t toH rj ps ⟨rows0 ++ [row], nid⟩ ot fn row
        (getExisting_single t rows0 row nid _ ot hnm0 hkey1 hkey2 E hexp (hts t (by simp)))
      rw [handleExisting_completed healthy _ row hstat] at hcall
      unfold repeatCalls
      rw [hcall]
      simp only
      rw [ih (fun t' ht' => hts t' (by simp [ht']))]
      simp

/-- C1: with `force_new = false` and a working store, when the dedup
lookup finds a non-expired record for the same (operation_type,
fingerprint): if it is COMPLETED the call returns the cached result
immediately and the business function is not invoked; if it is RUNNING
the call returns the 202 in-progress outcome immediately and the
business function is not invoked; and after a first successful
completion any number of identical replays within the retention window
leaves the function's total invocation count at 1 (the first call
invoked it, the replays add zero invocations and do not change the
table). -/
theorem claim_C1 (now toH : Nat) (rj ps : Option JValue) (s : Store) (ot : String)
    (fn : Except PyExn HttpResp) :
    (∀ op, getExistingOperation false now s
        (generate_request_id ot (pyOrDefault ps rj)) ot = some op →
      op.operation_status = OperationStatus.completed.value →
      idempotent_operation healthy now true toH rj s ot fn ps false =
        ⟨.response (cachedResultResponse op), s, false⟩) ∧
    (∀ op, getExistingOperation false now s
        (generate_request_id ot (pyOrDefault ps rj)) ot = some op →
      op.operation_status = OperationStatus.running.value →
      idempotent_operation healthy now true toH rj s ot fn ps false =
        ⟨.response (inProgressResponse op), s, false⟩) ∧
    (∀ (resp : HttpResp) (ts : List Nat),
      (∀ r ∈ s.rows,
        ¬(r.request_id = generate_request_id ot (pyOrDefault ps rj) ∧ r.operation_type = ot)) →
      (∀ r ∈ s.rows, r.operation_id ≠ s.nextId) →
      hasPyObj (pyOrDefault ps rj) = false →
      hasPyObj (respondBody resp) = false →
      (∀ t ∈ ts, t < now + toH) →
      (idempotent_operation healthy now true toH rj s ot (.ok resp) ps false).fnInvoked = true ∧
      (repeatCalls healthy toH rj ot (.ok resp) ps ts
        (idempotent_operation healthy now true toH rj s ot (.ok resp) ps false).store).2 = 0) := by
  refine ⟨?_, ?_, ?_⟩
  · intro op hfind hstat
    rw [run_existing now toH rj ps s ot fn op hfind,
        handleExisting_completed healthy s op hstat]
  · intro op hfind hstat
    rw [run_existing now toH rj ps s ot fn op hfind,
        handleExisting_running healthy s op hstat]
  · intro resp ts hnm hfresh hser hrser hts
    rw [run_fresh_ok now toH rj ps s ot resp hnm hfresh hser hrser]
    refine ⟨rfl, ?_⟩
    rw [repeat_cached_zero toH rj ps ot (.ok resp) s.rows _ (s.nextId + 1) (now + toH)
      hnm rfl rfl rfl rfl ts hts]

set_option maxRecDepth 400000 in
/-- Closed instance of C1: a table holding the COMPLETED record of the
first successful call serves the cached response (and the RUNNING
variant the 202), and three replays after a fresh successful call add
zero invocations. -/
theorem claim_C1_witness :
    idempotent_operation healthy 1 true 24 none exCompletedStore exOT okFn exParams false =
      ⟨.response (cachedResultResponse exCompletedRecord), exCompletedStore, false⟩ ∧
    idempotent_operation healthy 1 true 24 none exRunningStore exOT okFn exParams false =
      ⟨.response (inProgressResponse exRunningRecord), exRunningStore, false⟩ ∧
    ((idempotent_operation healthy 0 true 24 none emptyStore exOT okFn exParams false).fnInvoked
        = true ∧
     (repeatCalls healthy 24 none exOT okFn exParams [1, 2, 3]
       (idempotent_operation healthy 0 true 24 none emptyStore exOT okFn
         exParams false).store).2 = 0) :=
  ⟨(claim_C1 1 24 none exParams exCompletedStore exOT okFn).1 exCompletedRecord (by rfl) rfl,
   (claim_C1 1 24 none exParams exRunningStore exOT okFn).2.1 exRunningRecord (by rfl) rfl,
   (claim_C1 0 24 none exParams emptyStore exOT okFn).2.2 okResp [1, 2, 3]
     (by simp [emptyStore]) (by simp [emptyStore]) (by rfl) (by rfl) (by decide)⟩

/-- C9: when the business function raises during a fresh execution, the
controller persists the structured error payload into the record,
transitions it to FAILED with `completed_at` set, and re-raises the
original failure to the caller; the failure row is what later duplicate
callers will find. -/
theorem claim_C9 (now toH : Nat) (rj ps : Option JValue) (s : Store) (ot : String)
    (exn : PyExn)
    (hnm : ∀ r ∈ s.rows,
      ¬(r.request_id = generate_request_id ot (pyOrDefault ps rj) ∧ r.operation_type = ot))
    (hfresh : ∀ r ∈ s.rows, r.operation_id ≠ s.nextId)
    (hser : hasPyObj (pyOrDefault ps rj) = false) :
    idempotent_operation healthy now true toH rj s ot (.error exn) ps false =
      ⟨.raised (.opError exn),
       ⟨s.rows ++ [rowAfterFailure now toH s.nextId
           (generate_request_id ot (pyOrDefault ps rj)) ot
           (dumps (if jtruthy (pyOrDefault ps rj) then pyOrDefault ps rj else .obj []))
           (errorDetailsOf exn now)],
        s.nextId + 1⟩,
       true⟩ ∧
    (rowAfterFailure now toH s.nextId (generate_request_id ot (pyOrDefault ps rj)) ot
        (dumps (if jtruthy (pyOrDefault ps rj) then pyOrDefault ps rj else .obj []))
        (errorDetailsOf exn now)).operation_status = OperationStatus.failed.value ∧
    (rowAfterFailure now toH s.nextId (generate_request_id ot (pyOrDefault ps rj)) ot
        (dumps (if jtruthy (pyOrDefault ps rj) then pyOrDefault ps rj else .obj []))
        (errorDetailsOf exn now)).completed_at = some now ∧
    (rowAfterFailure now toH s.nextId (generate_request_id ot (pyOrDefault ps rj)) ot
        (dumps (if jtruthy (pyOrDefault ps rj) then pyOrDefault ps rj else .obj []))
        (errorDetailsOf exn now)).error_details = some (errorDetailsOf exn now) :=
  ⟨run_fresh_err now toH rj ps s ot exn hnm hfresh hser, rfl, rfl, rfl⟩

set_option maxRecDepth 400000 in
/-- Closed instance of C9: the first call with an always-raising function
re-raises `RuntimeError("boom")` and leaves one FAILED row carrying the
structured error payload with `completed_at` stamped. -/
theorem claim_C9_witness :
    idempotent_operation healthy 0 true 24 none emptyStore exOT failFn exParams false =
      ⟨.raised (.opError ⟨"RuntimeError", "boom"⟩),
       ⟨[rowAfterFailure 0 24 0 (generate_request_id exOT (pyOrDefault exParams none)) exOT
           (dumps (if jtruthy (pyOrDefault exParams none) then pyOrDefault exParams none
                   else .obj []))
           (errorDetailsOf ⟨"RuntimeError", "boom"⟩ 0)],
        1⟩,
       true⟩ :=
  (claim_C9 0 24 none exParams emptyStore exOT ⟨"RuntimeError", "boom"⟩
    (by simp [emptyStore]) (by simp [emptyStore]) (by rfl)).1

/-- C10: with `force_new = true` while any row for the same
(request_id, operation_type) physically exists — even a non-expired
COMPLETED one — the dedup lookup is skipped and the fresh insert
collides with the `unique_request` constraint: the call raises, the
table is unchanged, and the business function is not invoked. -/
theorem claim_C10 (now toH : Nat) (rj ps : Option JValue) (s : Store) (ot : String)
    (fn : Except PyExn HttpResp)
    (hser : hasPyObj (pyOrDefault ps rj) = false)
    (hex : ∃ r ∈ s.rows,
      r.request_id = generate_request_id ot (pyOrDefault ps rj) ∧ r.operation_type = ot) :
    idempotent_operation healthy now true toH rj s ot fn ps true =
      ⟨.raised .uniqueViolation, s, false⟩ := by
  have hser' : hasPyObj (if jtruthy (pyOrDefault ps rj) then pyOrDefault ps rj else .obj [])
      = false := by
    split
    · exact hser
    · rfl
  unfold idempotent_operation
  rw [if_neg (by simp)]
  simp only [reduceIte,
    startOperation_conflict now toH s (generate_request_id ot (pyOrDefault ps rj)) ot
      (pyOrDefault ps rj) hser' hex]

set_option maxRecDepth 400000 in
/-- Closed instance of C10: `force_new = true` against a table holding a
non-expired COMPLETED record for the same fingerprint raises the unique
violation and does not invoke the function. -/
theorem claim_C10_witness :
    idempotent_operation healthy 1 true 24 none exCompletedStore exOT okFn exParams true =
      ⟨.raised .uniqueViolation, exCompletedStore, false⟩ :=
  claim_C10 1 24 none exParams exCompletedStore exOT okFn (by rfl)
    ⟨exCompletedRecord, by simp [exCompletedStore], rfl, rfl⟩

set_option maxRecDepth 400000 in
/-- Counterexample to C2: a caller that loses the create race (the
RUNNING winner's row commits between its dedup lookup and its insert)
gets the unique-constraint violation raised at it — the conflict IS
surfaced to the end caller, instead of being converted into the dedup
path (which would have returned the winner's in-progress outcome). -/
theorem claim_C2_counterexample :
    (idempotentOperationRaced healthy 1 24 none emptyStore exRunningRecord exOT okFn
        exParams).result = .raised .uniqueViolation ∧
    (idempotentOperationRaced healthy 1 24 none emptyStore exRunningRecord exOT okFn
        exParams).result ≠ .response (inProgressResponse exRunningRecord) :=
  ⟨rfl, fun h => ExecResult.noConfusion h⟩

/-- C2 amended: a lost create race raises the store's unique-violation
error, which propagates to the end caller (the source's
`_start_operation` re-raises; there is no `ConflictLost` conversion into
the dedup path).  The surviving half of the claim: the losing caller
never invokes `operation_fn`, so the function cannot run twice for one
fingerprint. -/
theorem claim_C2_amended (now toH : Nat) (rj ps : Option JValue) (s : Store)
    (winner : OperationRecord) (ot : String) (fn : Except PyExn HttpResp)
    (hwk1 : winner.request_id = generate_request_id ot (pyOrDefault ps rj))
    (hwk2 : winner.operation_type = ot)
    (hser : hasPyObj (pyOrDefault ps rj) = false)
    (hnm : ∀ r ∈ s.rows,
      ¬(r.request_id = generate_request_id ot (pyOrDefault ps rj) ∧ r.operation_type = ot)) :
    idempotentOperationRaced healthy now toH rj s winner ot fn ps =
      ⟨.raised .uniqueViolation, ⟨s.rows ++ [winner], s.nextId + 1⟩, false⟩ := by
  have hser' : hasPyObj (if jtruthy (pyOrDefault ps rj) then pyOrDefault ps rj else .obj [])
      = false := by
    split
    · exact hser
    · rfl
  unfold idempotentOperationRaced
  simp only [show healthy.lookupFails = false from rfl,
    getExisting_none_of_keys now s (generate_request_id ot (pyOrDefault ps rj)) ot hnm,
    startOperation_conflict now toH ⟨s.rows ++ [winner], s.nextId + 1⟩
      (generate_request_id ot (pyOrDefault ps rj)) ot (pyOrDefault ps rj) hser'
      ⟨winner, by simp, hwk1, hwk2⟩]

set_option maxRecDepth 400000 in
/-- Closed instance of the amended C2 at the counterexample's inputs. -/
theorem claim_C2_amended_witness :
    idempotentOperationRaced healthy 1 24 none emptyStore exRunningRecord exOT okFn exParams =
      ⟨.raised .uniqueViolation, ⟨[exRunningRecord], 1⟩, false⟩ :=
  claim_C2_amended 1 24 none exParams emptyStore exRunningRecord exOT okFn rfl rfl
    (by rfl) (by simp [emptyStore])

set_option maxRecDepth 400000 in
/-- C3 evaluated at the failing input (always-failing function, three
identical sequential calls): call 1 runs the function once and leaves a
FAILED row; call 2 increments the retry counter, resets the row to
QUEUED, and returns Python `None` to the caller without re-invoking the
function (the `return None` meant as a re-execution signal inside
`_handle_existing_operation` is returned directly by
`idempotent_operation`); call 3 finds the QUEUED row, changes nothing
and again returns `None` without invoking the function.  The function is
never invoked `max_retries + 1` times and no exhausted outcome is ever
produced. -/
theorem claim_C3_code_eval :
    failCall1.result = .raised (.opError ⟨"RuntimeError", "boom"⟩) ∧
    failCall1.fnInvoked = true ∧
    (failCall1.store.rows.map fun r => (r.operation_status, r.retry_count)) =
      [("failed", 0)] ∧
    failCall2.result = .noneResp ∧
    failCall2.fnInvoked = false ∧
    (failCall2.store.rows.map fun r => (r.operation_status, r.retry_count)) =
      [("queued", 1)] ∧
    failCall3.result = .noneResp ∧
    failCall3.fnInvoked = false ∧
    (failCall3.store.rows.map fun r => (r.operation_status, r.retry_count)) =
      [("queued", 1)] :=
  ⟨rfl, rfl, rfl, rfl, rfl, rfl, rfl, rfl, rfl⟩

set_option maxRecDepth 400000 in
/-- Counterexample to C4: the fingerprint generator does not fail closed
on non-serializable parameters — it returns a 64-hex-digit digest, and
two parameter dicts that differ only in the `str()` representation of
the non-serializable component (e.g. its memory address) silently hash
to different fingerprints. -/
theorem claim_C4_counterexample :
    (generate_request_id exOT pyobjParams1).length = 64 ∧
    generate_request_id exOT pyobjParams1 ≠ generate_request_id exOT pyobjParams2 := by
  constructor
  · rfl
  · decide

theorem jtruthy_of_hasPyObj : ∀ v, hasPyObj v = true → jtruthy v = true := by
  intro v
  cases v with
  | arr xs => cases xs <;> simp [hasPyObj, hasPyObjList, jtruthy]
  | obj fs => cases fs <;> simp [hasPyObj, hasPyObjFields, jtruthy]
  | _ => simp [hasPyObj, jtruthy]

theorem startOperation_typeError (h : StoreHealth) (now toH : Nat) (s : Store)
    (rid ot : String) (params : JValue)
    (hins : h.insertFails = false) (hpy : hasPyObj params = true) :
    startOperation h now toH s rid ot params = .error .typeError := by
  unfold startOperation dumpsStrict
  rw [if_neg (by simp [hins])]
  rw [if_pos (jtruthy_of_hasPyObj params hpy), if_pos hpy]

/-- C4 amended: the generator never raises — `json.dumps(default=str)`
stringifies non-serializable components, so such parameters are silently
hashed through their `str()` representation (see the counterexample for
the resulting fingerprint instability).  No `FingerprintError` exists in
the code; instead, when the call has to create a fresh record, the
create step's strict `json.dumps(parameters)` raises a plain `TypeError`
before any row is written and before `operation_fn` runs. -/
theorem claim_C4_amended (now toH : Nat) (rj ps : Option JValue) (s : Store) (ot : String)
    (fn : Except PyExn HttpResp)
    (hpy : hasPyObj (pyOrDefault ps rj) = true)
    (hnm : ∀ r ∈ s.rows,
      ¬(r.request_id = generate_request_id ot (pyOrDefault ps rj) ∧ r.operation_type = ot)) :
    idempotent_operation healthy now true toH rj s ot fn ps false =
      ⟨.raised .typeError, s, false⟩ := by
  unfold idempotent_operation
  rw [if_neg (by simp)]
  simp only [show healthy.lookupFails = false from rfl, Bool.false_eq_true, reduceIte,
    getExisting_none_of_keys now s (generate_request_id ot (pyOrDefault ps rj)) ot hnm,
    startOperation_typeError healthy now toH s (generate_request_id ot (pyOrDefault ps rj)) ot
      (pyOrDefault ps rj) rfl hpy]

set_option maxRecDepth 400000 in
/-- Closed instance of the amended C4: non-serializable parameters make
the call raise `TypeError` at the create step, with no row written and
the function not invoked. -/
theorem claim_C4_amended_witness :
    idempotent_operation healthy 0 true 24 none emptyStore exOT okFn
        (some pyobjParams1) false = ⟨.raised .typeError, emptyStore, false⟩ :=
  claim_C4_amended 0 24 none (some pyobjParams1) emptyStore exOT okFn (by rfl)
    (by simp [emptyStore])

set_option maxRecDepth 400000 in
/-- Counterexample to C5: with an expired (but not yet deleted) COMPLETED
record for the fingerprint, the dedup lookup does return none, but no
fresh record is created and the function is NOT invoked again — the
insert collides with the `unique_request` constraint on the still
physically present row and the call raises. -/
theorem claim_C5_counterexample :
    getExistingOperation false 10 exExpiredStore
      (generate_request_id exOT (pyOrDefault exParams none)) exOT = none ∧
    idempotent_operation healthy 10 true 24 none exExpiredStore exOT okFn exParams false =
      ⟨.raised .uniqueViolation, exExpiredStore, false⟩ :=
  ⟨rfl, rfl⟩

/-- C5 amended: an expired record is treated as absent by the dedup
lookup (it returns none even before physical deletion), but the
subsequent insert violates the table's unique
(request_id, operation_type) constraint while the expired row still
physically exists, so the call raises the unique violation, the table is
unchanged, and `operation_fn` is not invoked; re-execution only becomes
possible once the old row is physically deleted. -/
theorem claim_C5_amended (now toH : Nat) (rj ps : Option JValue) (s : Store) (ot : String)
    (fn : Except PyExn HttpResp)
    (hser : hasPyObj (pyOrDefault ps rj) = false)
    (hallexp : ∀ r ∈ s.rows,
      r.request_id = generate_request_id ot (pyOrDefault ps rj) → r.operation_type = ot →
        ∃ e, r.expires_at = some e ∧ e ≤ now)
    (hex : ∃ r ∈ s.rows,
      r.request_id = generate_request_id ot (pyOrDefault ps rj) ∧ r.operation_type = ot) :
    getExistingOperation false now s (generate_request_id ot (pyOrDefault ps rj)) ot = none ∧
    idempotent_operation healthy now true toH rj s ot fn ps false =
      ⟨.raised .uniqueViolation, s, false⟩ := by
  have hser' : hasPyObj (if jtruthy (pyOrDefault ps rj) then pyOrDefault ps rj else .obj [])
      = false := by
    split
    · exact hser
    · rfl
  have hlook := getExisting_none_of_expired now s
    (generate_request_id ot (pyOrDefault ps rj)) ot hallexp
  refine ⟨hlook, ?_⟩
  unfold idempotent_operation
  rw [if_neg (by simp)]
  simp only [show healthy.lookupFails = false from rfl, Bool.false_eq_true, reduceIte, hlook,
    startOperation_conflict now toH s (generate_request_id ot (pyOrDefault ps rj)) ot
      (pyOrDefault ps rj) hser' hex]

set_option maxRecDepth 400000 in
/-- Closed instance of the amended C5 at the counterexample's store. -/
theorem claim_C5_amended_witness :
    getExistingOperation false 10 exExpiredStore
      (generate_request_id exOT (pyOrDefault exParams none)) exOT = none ∧
    idempotent_operation healthy 10 true 24 none exExpiredStore exOT okFn exParams false =
      ⟨.raised .uniqueViolation, exExpiredStore, false⟩ :=
  claim_C5_amended 10 24 none exParams exExpiredStore exOT okFn (by rfl)
    (by
      intro r hr h1 h2
      simp only [exExpiredStore] at hr
      simp only [List.mem_singleton] at hr
      subst hr
      exact ⟨5, rfl, by omega⟩)
    ⟨exExpiredRecord, by simp [exExpiredStore], rfl, rfl⟩

/-- Counterexample to C6: `cleanup_expired_operations` deletes a RUNNING
row whose `expires_at` lies past the retention horizon — the delete
filters on time only, never on status. -/
theorem claim_C6_counterexample :
    (exStuckRunningStore.rows.map fun r => r.operation_status) = ["running"] ∧
    (cleanup_expired_operations 200 7 exStuckRunningStore).rows = [] :=
  ⟨rfl, rfl⟩

/-- C6 amended: cleanup deletes exactly the rows whose `expires_at` is
older than `now` minus the retention interval, regardless of status —
including RUNNING rows (`cleanupDeletes` never inspects
`operation_status`); rows with `NULL` or recent `expires_at` are kept,
and re-running the cleanup at the same instant deletes nothing more
(idempotent). -/
theorem claim_C6_amended (now days_old : Nat) (s : Store) :
    (∀ r, r ∈ (cleanup_expired_operations now days_old s).rows ↔
      (r ∈ s.rows ∧ cleanupDeletes now days_old r = false)) ∧
    cleanup_expired_operations now days_old (cleanup_expired_operations now days_old s) =
      cleanup_expired_operations now days_old s := by
  constructor
  · intro r
    simp [cleanup_expired_operations, List.mem_filter]
  · unfold cleanup_expired_operations
    simp [List.filter_filter]

/-- Closed instance of the amended C6: re-running cleanup on the
counterexample's table removes nothing further. -/
theorem claim_C6_amended_witness :
    cleanup_expired_operations 200 7 (cleanup_expired_operations 200 7 exStuckRunningStore) =
      cleanup_expired_operations 200 7 exStuckRunningStore :=
  (claim_C6_amended 200 7 exStuckRunningStore).2

set_option maxRecDepth 400000 in
/-- Counterexample to C7: with the backend failing during the dedup
lookup, the call does not propagate a store error — the broad `except`
in `_get_existing_operation` swallows it, the lookup is treated as "no
existing record", a fresh row is created and `operation_fn` is invoked
(fail-open, not fail-closed). -/
theorem claim_C7_counterexample :
    (idempotent_operation ⟨true, false, false, false, false⟩ 0 true 24 none emptyStore
        exOT okFn exParams false).fnInvoked = true ∧
    (idempotent_operation ⟨true, false, false, false, false⟩ 0 true 24 none emptyStore
        exOT okFn exParams false).store.rows.length = 1 ∧
    (idempotent_operation ⟨true, false, false, false, false⟩ 0 true 24 none emptyStore
        exOT okFn exParams false).result = .response okResp :=
  ⟨rfl, rfl, rfl⟩

/-- C7 amended: a backend failure during the dedup lookup is caught and
treated exactly like "no existing record" (fail-open), so execution
proceeds to the create step; only a backend failure during the create
step itself propagates to the caller, with no record created and the
function not invoked. -/
theorem claim_C7_amended (now toH : Nat) (rj ps : Option JValue) (s : Store)
    (rid ot : String) (fn : Except PyExn HttpResp) :
    getExistingOperation true now s rid ot = none ∧
    idempotent_operation ⟨true, true, false, false, false⟩ now true toH rj s ot fn ps false =
      ⟨.raised .storeFailure, s, false⟩ := by
  constructor
  · rfl
  · unfold idempotent_operation getExistingOperation startOperation
    simp

/-- Closed instance of the amended C7. -/
theorem claim_C7_amended_witness :
    getExistingOperation true 0 exCompletedStore
      (generate_request_id exOT (pyOrDefault exParams none)) exOT = none ∧
    idempotent_operation ⟨true, true, false, false, false⟩ 0 true 24 none exCompletedStore
        exOT okFn exParams false = ⟨.raised .storeFailure, exCompletedStore, false⟩ :=
  claim_C7_amended 0 24 none exParams exCompletedStore
    (generate_request_id exOT (pyOrDefault exParams none)) exOT okFn

set_option maxRecDepth 400000 in
/-- Counterexample to C8: the record reached by create → run → fail →
increment-retry is QUEUED while its `error_details` is still non-null
(`_increment_retry_count` resets the status without clearing the error),
so "error non-null ⟺ status = FAILED" fails. -/
theorem claim_C8_counterexample :
    (failCall2.store.rows.map fun r => (r.operation_status, r.error_details.isSome)) =
      [("queued", true)] := rfl

theorem pickLatest_mem (l : List OperationRecord) (r : OperationRecord)
    (h : pickLatest l = some r) : r ∈ l := by
  induction l generalizing r with
  | nil => cases h
  | cons a t ih =>
      unfold pickLatest at h
      cases hp : pickLatest t with
      | none =>
          rw [hp] at h
          cases h
          simp
      | some b =>
          rw [hp] at h
          dsimp only at h
          by_cases hc : a.started_at < b.started_at
          · rw [if_pos hc] at h
            cases h
            exact List.mem_cons_of_mem a (ih _ hp)
          · rw [if_neg hc] at h
            cases h
            simp

theorem getExisting_facts (fails : Bool) (now : Nat) (s : Store) (rid ot : String)
    (op : OperationRecord) (h : getExistingOperation fails now s rid ot = some op) :
    op ∈ s.rows := by
  unfold getExistingOperation at h
  split at h
  · cases h
  · exact (List.mem_filter.mp (pickLatest_mem _ op h)).1

theorem WF_map_preserve (s : Store) (f : OperationRecord → OperationRecord)
    (hWF : StoreWF s)
    (hid : ∀ r ∈ s.rows, (f r).operation_id = r.operation_id)
    (hinv : ∀ r ∈ s.rows, RecInv (f r)) :
    StoreWF ⟨s.rows.map f, s.nextId⟩ := by
  obtain ⟨hi, hnd, hlt⟩ := hWF
  refine ⟨?_, ?_, ?_⟩
  · intro r' hr'
    rw [List.mem_map] at hr'
    obtain ⟨r, hr, hfr⟩ := hr'
    rw [← hfr]
    exact hinv r hr
  · have heq : (s.rows.map f).map (fun r => r.operation_id) =
        s.rows.map (fun r => r.operation_id) := by
      rw [List.map_map]
      exact List.map_congr_left hid
    rw [heq]
    exact hnd
  · intro r' hr'
    rw [List.mem_map] at hr'
    obtain ⟨r, hr, hfr⟩ := hr'
    rw [← hfr, hid r hr]
    exact hlt r hr

theorem WF_append_fresh (s : Store) (row : OperationRecord)
    (hWF : StoreWF s) (hid : row.operation_id = s.nextId) (hinv : RecInv row) :
    StoreWF ⟨s.rows ++ [row], s.nextId + 1⟩ := by
  obtain ⟨hi, hnd, hlt⟩ := hWF
  refine ⟨?_, ?_, ?_⟩
  · intro r hr
    rcases List.mem_append.mp hr with h | h
    · exact hi r h
    · rw [List.mem_singleton] at h
      rw [h]
      exact hinv
  · rw [List.map_append, List.nodup_append]
    refine ⟨hnd, by simp, ?_⟩
    intro a ha
    rw [List.mem_map] at ha
    obtain ⟨r, hr, hfr⟩ := ha
    simp only [List.map_cons, List.map_nil, List.mem_singleton]
    rw [← hfr, hid]
    exact Nat.ne_of_lt (hlt r hr)
  · intro r hr
    rcases List.mem_append.mp hr with h | h
    · exact Nat.lt_succ_of_lt (hlt r h)
    · rw [List.mem_singleton] at h
      rw [h, hid]
      exact Nat.lt_succ_self _

theorem RecInv_newRow (now toH oid : Nat) (rid ot pdump : String) :
    RecInv (newOperationRow now toH oid rid ot pdump) := by
  constructor <;> simp [newOperationRow, OperationStatus.value]

theorem incrementRetryCount_WF (h : StoreHealth) (s : Store) (op : OperationRecord)
    (hWF : StoreWF s) (hmem : op ∈ s.rows)
    (hstat : op.operation_status = OperationStatus.failed.value) :
    StoreWF (incrementRetryCount h s op.operation_id) := by
  unfold incrementRetryCount
  split
  · exact hWF
  · have hres : op.result.isSome = false := by
      have := (hWF.1 op hmem).1
      rw [hstat] at this
      by_contra hc
      rw [Bool.not_eq_false] at hc
      exact absurd (this.mp hc) (by simp [OperationStatus.value])
    refine WF_map_preserve s _ hWF (fun r hr => by split <;> rfl) ?_
    intro r hr
    by_cases hb : (r.operation_id == op.operation_id) = true
    · rw [if_pos hb]
      have hrop : r = op :=
        List.inj_on_of_nodup_map hWF.2.1 hr hmem (beq_iff_eq.mp hb)
      rw [hrop]
      constructor
      · simp [hres, OperationStatus.value]
      · simp [OperationStatus.value]
    · rw [if_neg hb]
      exact hWF.1 r hr

theorem handleExisting_other (h : StoreHealth) (s : Store) (op : OperationRecord)
    (h1 : ¬ op.operation_status = OperationStatus.completed.value)
    (h2 : ¬ op.operation_status = OperationStatus.running.value)
    (h3 : ¬ op.operation_status = OperationStatus.failed.value) :
    handleExistingOperation h s op = (none, s) := by
  unfold handleExistingOperation
  rw [if_neg (by simpa using h1), if_neg (by simpa using h2), if_neg (by simpa using h3)]

theorem updateRunning_WF (h : StoreHealth) (now : Nat) (s : Store) (oid : Nat)
    (hWF : StoreWF s)
    (hres : ∀ r ∈ s.rows, r.operation_id = oid → r.result.isSome = false) :
    StoreWF (updateOperationStatus h now s oid .running).1 := by
  unfold updateOperationStatus
  split
  · exact hWF
  · refine WF_map_preserve s _ hWF (fun r hr => by split <;> rfl) ?_
    intro r hr
    by_cases hb : (r.operation_id == oid) = true
    · rw [if_pos hb]
      constructor
      · simp [hres r hr (beq_iff_eq.mp hb), OperationStatus.value]
      · simp [OperationStatus.value]
    · rw [if_neg hb]
      exact hWF.1 r hr

theorem updateRunning_keeps_res (h : StoreHealth) (now : Nat) (s : Store) (oid : Nat)
    (hres : ∀ r ∈ s.rows, r.operation_id = oid → r.result.isSome = false) :
    ∀ r ∈ (updateOperationStatus h now s oid .running).1.rows,
      r.operation_id = oid → r.result.isSome = false := by
  unfold updateOperationStatus
  split
  · exact hres
  · intro r hr hid
    dsimp only at hr
    rw [List.mem_map] at hr
    obtain ⟨r0, hr0, hfr⟩ := hr
    by_cases hb : (r0.operation_id == oid) = true
    · rw [if_pos hb] at hfr
      rw [← hfr]
      exact hres r0 hr0 (beq_iff_eq.mp hb)
    · rw [if_neg hb] at hfr
      rw [← hfr]
      exact hres r0 hr0 (by rw [hfr]; exact hid)

theorem completeCompleted_WF (h : StoreHealth) (now : Nat) (s : Store) (oid : Nat)
    (rdata : JValue) (hWF : StoreWF s) :
    StoreWF (completeOperation h now s oid .completed rdata).1 := by
  unfold completeOperation dumpsStrict
  split
  · exact hWF
  · split
    · exact hWF
    · rw [if_neg (by simp : ¬(OperationStatus.completed = OperationStatus.failed))]
      refine WF_map_preserve s _ hWF (fun r hr => by split <;> rfl) ?_
      intro r hr
      by_cases hb : (r.operation_id == oid) = true
      · rw [if_pos hb]
        constructor
        · simp [OperationStatus.value]
        · simp [OperationStatus.value]
      · rw [if_neg hb]
        exact hWF.1 r hr

theorem completeFailed_WF (h : StoreHealth) (now : Nat) (s : Store) (oid : Nat)
    (edata : JValue) (hWF : StoreWF s)
    (hres : ∀ r ∈ s.rows, r.operation_id = oid → r.result.isSome = false) :
    StoreWF (completeOperation h now s oid .failed edata).1 := by
  unfold completeOperation dumpsStrict
  split
  · exact hWF
  · split
    · exact hWF
    · rw [if_pos rfl]
      refine WF_map_preserve s _ hWF (fun r hr => by split <;> rfl) ?_
      intro r hr
      by_cases hb : (r.operation_id == oid) = true
      · rw [if_pos hb]
        constructor
        · simp [hres r hr (beq_iff_eq.mp hb), OperationStatus.value]
        · simp [OperationStatus.value]
      · rw [if_neg hb]
        exact hWF.1 r hr

theorem startOperation_ok_shape (h : StoreHealth) (now toH : Nat) (s : Store)
    (rid ot : String) (params : JValue) (s1 : Store) (oid : Nat)
    (hs : startOperation h now toH s rid ot params = .ok (s1, oid)) :
    oid = s.nextId ∧
    s1 = ⟨s.rows ++ [newOperationRow now toH s.nextId rid ot
            (dumps (if jtruthy params then params else .obj []))], s.nextId + 1⟩ := by
  unfold startOperation dumpsStrict at hs
  by_cases hf : h.insertFails = true
  · rw [if_pos hf] at hs
    cases hs
  · rw [if_neg hf] at hs
    by_cases hp : hasPyObj (if jtruthy params then params else .obj []) = true
    · rw [if_pos hp] at hs
      dsimp only at hs
      cases hs
    · rw [if_neg hp] at hs
      dsimp only at hs
      by_cases ha : (s.rows.any fun r => r.request_id == rid && r.operation_type == ot) = true
      · rw [if_pos ha] at hs
        cases hs
      · rw [if_neg ha] at hs
        cases hs
        exact ⟨rfl, rfl⟩

/-- C8 amended: across every record reachable through the controller
(create, transition to RUNNING, complete, fail, increment-retry — i.e.
any `execute` call under any store health), "result non-null ⟺ status =
COMPLETED" and "status = FAILED ⟹ error non-null" are preserved, along
with distinct row ids.  The converse "error non-null ⟹ FAILED" is NOT an
invariant: increment-retry produces a QUEUED row whose `error_details`
is still set (see the counterexample). -/
theorem claim_C8_amended (h : StoreHealth) (now : Nat) (en : Bool) (toH : Nat)
    (rj ps : Option JValue) (s : Store) (ot : String) (fn : Except PyExn HttpResp)
    (fnew : Bool) (hWF : StoreWF s) :
    StoreWF (idempotent_operation h now en toH rj s ot fn ps fnew).store := by
  unfold idempotent_operation
  cases en with
  | false =>
      rw [if_pos (by simp)]
      cases fn <;> exact hWF
  | true =>
      rw [if_neg (by simp)]
      simp only []
      cases hex : (if fnew = true then none
          else getExistingOperation h.lookupFails now s
            (generate_request_id ot (pyOrDefault ps rj)) ot) with
      | some op =>
          dsimp only
          have hmem : op ∈ s.rows := by
            cases fnew with
            | true => simp at hex
            | false =>
                rw [if_neg (by simp)] at hex
                exact getExisting_facts _ _ _ _ _ _ hex
          by_cases h1 : op.operation_status = OperationStatus.completed.value
          · rw [handleExisting_completed h s op h1]
            exact hWF
          · by_cases h2 : op.operation_status = OperationStatus.running.value
            · rw [handleExisting_running h s op h2]
              exact hWF
            · by_cases h3 : op.operation_status = OperationStatus.failed.value
              · by_cases h4 : op.retry_count < 3
                · rw [handleExisting_failed_retry h s op h3 h4]
                  exact incrementRetryCount_WF h s op hWF hmem h3
                · rw [handleExisting_failed_exhausted h s op h3 h4]
                  exact hWF
              · rw [handleExisting_other h s op h1 h2 h3]
                exact hWF
      | none =>
          dsimp only
          cases hso : startOperation h now toH s
              (generate_request_id ot (pyOrDefault ps rj)) ot (pyOrDefault ps rj) with
          | error e => exact hWF
          | ok p =>
              obtain ⟨s1, oid⟩ := p
              obtain ⟨hoid, hs1⟩ := startOperation_ok_shape h now toH s
                (generate_request_id ot (pyOrDefault ps rj)) ot (pyOrDefault ps rj) s1 oid hso
              subst hoid
              subst hs1
              dsimp only
              have hWFmid : StoreWF ⟨s.rows ++ [newOperationRow now toH s.nextId
                  (generate_request_id ot (pyOrDefault ps rj)) ot
                  (dumps (if jtruthy (pyOrDefault ps rj) then pyOrDefault ps rj
                          else .obj []))], s.nextId + 1⟩ :=
                WF_append_fresh s _ hWF rfl (RecInv_newRow _ _ _ _ _ _)
              have hresmid : ∀ r ∈ (⟨s.rows ++ [newOperationRow now toH s.nextId
                  (generate_request_id ot (pyOrDefault ps rj)) ot
                  (dumps (if jtruthy (pyOrDefault ps rj) then pyOrDefault ps rj
                          else .obj []))], s.nextId + 1⟩ : Store).rows,
                  r.operation_id = s.nextId → r.result.isSome = false := by
                intro r hr hid
                rcases List.mem_append.mp hr with hh | hh
                · exact absurd hid (Nat.ne_of_lt (hWF.2.2 r hh))
                · rw [List.mem_singleton] at hh
                  rw [hh]
                  rfl
              rcases hu : updateOperationStatus h now ⟨s.rows ++ [newOperationRow now toH
                  s.nextId (generate_request_id ot (pyOrDefault ps rj)) ot
                  (dumps (if jtruthy (pyOrDefault ps rj) then pyOrDefault ps rj
                          else .obj []))], s.nextId + 1⟩ s.nextId .running with ⟨s2, ures⟩
              dsimp only
              have hWF2 : StoreWF s2 := by
                have hx := updateRunning_WF h now _ s.nextId hWFmid hresmid
                rw [hu] at hx
                exact hx
              have hres2 : ∀ r ∈ s2.rows, r.operation_id = s.nextId →
                  r.result.isSome = false := by
                have hx := updateRunning_keeps_res h now _ s.nextId hresmid
                rw [hu] at hx
                exact hx
              cases fn with
              | ok result =>
                  exact completeCompleted_WF h now s2 s.nextId
                    (extract_result_data (some result)) hWF2
              | error e =>
                  exact completeFailed_WF h now s2 s.nextId
                    (.obj [("error", .str e.emsg), ("error_type", .str e.ename),
                           ("timestamp", .num now)]) hWF2 hres2

set_option maxRecDepth 400000 in
/-- Closed instance of the amended C8: starting from the empty
well-formed table, the failing first call preserves the invariant. -/
theorem claim_C8_amended_witness :
    StoreWF emptyStore ∧
    StoreWF (idempotent_operation healthy 0 true 24 none emptyStore exOT failFn
      exParams false).store :=
  have hwf : StoreWF emptyStore := by
    refine ⟨?_, ?_, ?_⟩ <;> simp [emptyStore]
  ⟨hwf, claim_C8_amended healthy 0 true 24 none exParams emptyStore exOT failFn false hwf⟩
